import Mathlib

/-!
# Verification of the certificate import / batch-generation pipeline

Shallow embedding of the core logic of the ECell certificate system:

* `src/lib/importValidation.ts` — spreadsheet import validation
  (`validateRow`, `validateImportRows`, header aliasing, flexible dates,
  duplicate certificate-number detection);
* `src/lib/certificateUtils.ts` — certificate-number generation and
  format validation (`generateCertificateNumber`,
  `isValidCertificateNumber`);
* the bulk-generation route `POST /api/admin/certificates/generate`
  (row filtering, the 20-row cap, the sequential per-row pipeline with
  per-row error accumulation);
* the public verification route `GET /api/verify/[certificateNumber]`.

JavaScript string primitives (`trim`, `toLowerCase`, `toUpperCase`,
template interpolation of numbers) are modelled on `List Char`, on which
all the embedded functions operate.  External services (database,
PDF renderer, object storage, QR encoder) are modelled as oracles
supplied in an environment record; the embedded route bodies thread an
explicit list of persisted certificate numbers through the per-row loop.
-/

/-! ## JavaScript string primitives -/

/-- The whitespace characters recognised by `String.prototype.trim`
(restricted to the ASCII whitespace that can occur in the inputs
considered here). -/
def isWs (c : Char) : Bool :=
  c.toNat = 32 || c.toNat = 9 || c.toNat = 10 || c.toNat = 13 || c.toNat = 11 || c.toNat = 12

/-- Model of `s.trim()` on the character list: drop whitespace from both ends. -/
def trimCh (cs : List Char) : List Char :=
  ((cs.dropWhile isWs).reverse.dropWhile isWs).reverse

/-- Model of `s.trim()`. -/
def jsTrim (s : String) : String := ⟨trimCh s.data⟩

/-- ASCII lower-casing of one character (`String.prototype.toLowerCase`
restricted to ASCII, which covers every header alias in the source). -/
def lowerChar (c : Char) : Char :=
  if 65 ≤ c.toNat ∧ c.toNat ≤ 90 then Char.ofNat (c.toNat + 32) else c

/-- ASCII upper-casing of one character (`String.prototype.toUpperCase`
restricted to ASCII). -/
def upperChar (c : Char) : Char :=
  if 97 ≤ c.toNat ∧ c.toNat ≤ 122 then Char.ofNat (c.toNat - 32) else c

/-- ASCII digit test, i.e. the regex class `\d`. -/
def isDigitCh (c : Char) : Bool := 48 ≤ c.toNat && c.toNat ≤ 57

/-- Numeric value of an ASCII digit character. -/
def digitVal (c : Char) : Nat := c.toNat - 48

/-- Decimal rendering of a natural number, as produced by JavaScript
template interpolation of a number (`` `${n}` ``). -/
def decimalStr (n : Nat) : List Char :=
  if _h : n < 10 then [Nat.digitChar n]
  else decimalStr (n / 10) ++ [Nat.digitChar (n % 10)]
  decreasing_by exact Nat.div_lt_self (by omega) (by omega)

/-! ## `src/lib/importValidation.ts` -/

/-- Source interface `ImportRowData` (importValidation.ts).  The two optional fields are
`Option`s: `none` models the field being absent from the object. -/
structure ImportRowData where
  participantName : String
  participantEmail : Option String := none
  eventName : String
  eventStartDate : String
  eventEndDate : String
  certificateNumber : Option String := none
deriving Repr, DecidableEq

/-- Source interface `ValidatedImportRow` (importValidation.ts). -/
structure ValidatedImportRow where
  index : Nat
  data : ImportRowData
  isValid : Bool
  errors : List String
deriving Repr, DecidableEq

/-- Source `normalizeHeader`: trim, lower-case, strip all whitespace. -/
def normalizeHeader (h : String) : String :=
  ⟨((trimCh h.data).map lowerChar).filter (fun c => !isWs c)⟩

/-- Normalisation applied to each column alias inside `findColumnKey`
(`a.toLowerCase().replace(/\s+/g, '')`). -/
def normalizeAlias (a : String) : String :=
  ⟨(a.data.map lowerChar).filter (fun c => !isWs c)⟩

/-- The `COLUMNS` alias table, one field of the record per logical
column; the resolved column map (`findColumnKey`'s result). -/
structure ColumnMap where
  participantName : Option Nat := none
  participantEmail : Option Nat := none
  eventName : Option Nat := none
  eventStartDate : Option Nat := none
  eventEndDate : Option Nat := none
  certificateNumber : Option Nat := none
deriving Repr, DecidableEq

/-- First header column (left to right) whose normalised text equals a
normalised alias. -/
def findAlias (aliases : List String) (normHeaders : List String) : Option Nat :=
  normHeaders.findIdx? (fun h => (aliases.map normalizeAlias).contains h)

/-- Source `findColumnKey` with the `COLUMNS` aliases from the source. -/
def findColumnKey (headers : List String) : ColumnMap :=
  let n := headers.map normalizeHeader
  { participantName := findAlias ["participantname", "participant name", "name"] n
    participantEmail := findAlias ["participantemail", "participant email", "email"] n
    eventName := findAlias ["eventname", "event name", "event"] n
    eventStartDate := findAlias ["eventstartdate", "event start date", "start date", "startdate"] n
    eventEndDate := findAlias ["eventenddate", "event end date", "end date", "enddate"] n
    certificateNumber := findAlias ["certificatenumber", "certificate number"] n }

/-- Model of `parseCell(row[columnMap[key]] ?? '')` for a string table: a missing
column (no matching header, or a short row) yields `''`; a present cell
is trimmed.  (The numeric/date branches of `parseCell` cannot fire on a
`string[][]` table.) -/
def getCell (row : List String) (idx : Option Nat) : String :=
  match idx with
  | none => ""
  | some i => jsTrim (row.getD i "")

/-- Character class `[^\s@]` of the `isValidEmail` regex. -/
def emailChr (c : Char) : Bool := !isWs c && c ≠ '@'

/-- Split a character list at the first occurrence of `sep`. -/
def splitAtFirst (sep : Char) : List Char → Option (List Char × List Char)
  | [] => none
  | c :: rest =>
    if c = sep then some ([], rest)
    else (splitAtFirst sep rest).map (fun p => (c :: p.1, p.2))

/-- Does the list contain a `'.'` that is not its last element? -/
def dotNotLast : List Char → Bool
  | '.' :: _ :: _ => true
  | _ :: rest => dotNotLast rest
  | [] => false

/-- The regex `^[^\s@]+@[^\s@]+\.[^\s@]+$` as a Boolean matcher: a
non-empty `@`-free whitespace-free local part, one `'@'`, then a domain
part that is `@`-free and whitespace-free and contains a `'.'` preceded
and followed by at least one character. -/
def emailShape (cs : List Char) : Bool :=
  match splitAtFirst '@' cs with
  | none => false
  | some (a, b) =>
    !a.isEmpty && a.all emailChr && b.all emailChr &&
      (match b with
       | [] => false
       | _ :: rest => dotNotLast rest)

/-- Source `isValidEmail` (importValidation.ts): vacuously true on blank input,
otherwise the regex test on the trimmed string. -/
def isValidEmail (s : String) : Bool :=
  if (trimCh s.data).isEmpty then true
  else emailShape (trimCh s.data)

/-- Core of `parseFlexibleDate` on the character list of the input:
blank input yields `''`; a trimmed string matching
`^(\d{2})-(\d{2})-(\d{4})$` is rewritten to
`` `${year}-${month}-${day}` ``; anything else passes through trimmed. -/
def pfdCh (cs : List Char) : String :=
  let t := trimCh cs
  if t.isEmpty then ""
  else
    match t with
    | [d1, d2, '-', m1, m2, '-', y1, y2, y3, y4] =>
      if isDigitCh d1 && isDigitCh d2 && isDigitCh m1 && isDigitCh m2 &&
          isDigitCh y1 && isDigitCh y2 && isDigitCh y3 && isDigitCh y4 then
        ⟨[y1, y2, y3, y4, '-', m1, m2, '-', d1, d2]⟩
      else ⟨t⟩
    | _ => ⟨t⟩

/-- Source `parseFlexibleDate`. -/
def parseFlexibleDate (s : String) : String := pfdCh s.data

/-- Validity of `new Date(s)` (i.e. `!Number.isNaN(d.getTime())`),
modelled for strings in the ECMAScript date-only interchange format
`YYYY-MM-DD`: month `01`–`12`, day `01`–`31`.  Every other string shape
is conservatively mapped to `false`; the development only evaluates this
model on `YYYY-MM-DD` strings denoting real calendar dates, on which all
engines agree. -/
def jsDateValid (s : String) : Bool :=
  match s.data with
  | [y1, y2, y3, y4, '-', m1, m2, '-', d1, d2] =>
    if isDigitCh y1 && isDigitCh y2 && isDigitCh y3 && isDigitCh y4 &&
        isDigitCh m1 && isDigitCh m2 && isDigitCh d1 && isDigitCh d2 then
      decide (1 ≤ 10 * digitVal m1 + digitVal m2) &&
      decide (10 * digitVal m1 + digitVal m2 ≤ 12) &&
      decide (1 ≤ 10 * digitVal d1 + digitVal d2) &&
      decide (10 * digitVal d1 + digitVal d2 ≤ 31)
    else false
  | _ => false

/-- Source `isValidDateStr`: blank input is invalid; otherwise the flexible
rewrite followed by `new Date` validity. -/
def isValidDateStr (s : String) : Bool :=
  if (trimCh s.data).isEmpty then false
  else jsDateValid (parseFlexibleDate s)

/-- Source `formatCertNumber`: trim then upper-case. -/
def formatCertNumber (s : String) : String :=
  ⟨(trimCh s.data).map upperChar⟩

/-- Source `validateRow` (importValidation.ts): read the six cells through the
column map, accumulate the error strings in source order, and build the
result row; the optional fields are included in `data` only when the
cell is non-empty. -/
def validateRow (row : List String) (index : Nat) (cm : ColumnMap)
    (existingCertNumbers : List String) : ValidatedImportRow :=
  let participantName := getCell row cm.participantName
  let participantEmail := getCell row cm.participantEmail
  let eventName := getCell row cm.eventName
  let eventStartDate := getCell row cm.eventStartDate
  let eventEndDate := getCell row cm.eventEndDate
  let certificateNumber := getCell row cm.certificateNumber
  let errors :=
    (if participantName = "" then ["participantName is required"] else []) ++
    (if eventName = "" then ["eventName is required"] else []) ++
    (if eventStartDate = "" then ["eventStartDate is required"]
     else if !isValidDateStr eventStartDate then ["eventStartDate must be a valid date"]
     else []) ++
    (if eventEndDate = "" then ["eventEndDate is required"]
     else if !isValidDateStr eventEndDate then ["eventEndDate must be a valid date"]
     else []) ++
    (if participantEmail ≠ "" ∧ !isValidEmail participantEmail
     then ["participantEmail must be a valid email"] else []) ++
    (if certificateNumber ≠ "" ∧
        existingCertNumbers.contains (formatCertNumber certificateNumber)
     then ["certificateNumber must be unique"] else [])
  { index := index
    data :=
      { participantName := participantName
        participantEmail := if participantEmail ≠ "" then some participantEmail else none
        eventName := eventName
        eventStartDate := eventStartDate
        eventEndDate := eventEndDate
        certificateNumber :=
          if certificateNumber ≠ "" then some (formatCertNumber certificateNumber) else none }
    isValid := errors.isEmpty
    errors := errors }

/-- The result row pushed by the within-file duplicate branch of
`validateImportRows`: only the four required fields, a single error. -/
def dupRow (row : List String) (cm : ColumnMap) (index : Nat) : ValidatedImportRow :=
  { index := index
    data :=
      { participantName := getCell row cm.participantName
        eventName := getCell row cm.eventName
        eventStartDate := getCell row cm.eventStartDate
        eventEndDate := getCell row cm.eventEndDate }
    isValid := false
    errors := ["certificateNumber must be unique within file"] }

/-- The data-row loop of `validateImportRows`: for each row, if its
certificate-number cell is non-empty and already in the seen set, push
the duplicate row and continue; otherwise add the number to the seen set
(when present) and run `validateRow` against the (just-updated, shared)
set.  `idx` is the 1-based file row number of the current row. -/
def validateRowsGo (cm : ColumnMap) :
    List (List String) → List String → Nat → List ValidatedImportRow
  | [], _, _ => []
  | row :: rest, seen, idx =>
    let certNum := getCell row cm.certificateNumber
    if certNum = "" then
      validateRow row idx cm seen :: validateRowsGo cm rest seen (idx + 1)
    else
      let cert := formatCertNumber certNum
      if seen.contains cert then
        dupRow row cm idx :: validateRowsGo cm rest seen (idx + 1)
      else
        validateRow row idx cm (cert :: seen) ::
          validateRowsGo cm rest (cert :: seen) (idx + 1)

/-- Source `validateImportRows` (importValidation.ts): fewer than two rows yield
no results; otherwise the first row resolves the column map and the seen
set starts as a copy of the caller-supplied existing numbers. -/
def validateImportRows (rows : List (List String))
    (existingCertNumbers : List String := []) : List ValidatedImportRow :=
  match rows with
  | [] => []
  | [_] => []
  | headers :: dataRows => validateRowsGo (findColumnKey headers) dataRows existingCertNumbers 2

/-! ## `src/lib/certificateUtils.ts` -/

/-- The fixed character set `'ABCDEFGHIJKLMNOPQRSTUVWXYZ0123456789'` the
random suffix is drawn from. -/
def certChars : List Char := "ABCDEFGHIJKLMNOPQRSTUVWXYZ0123456789".data

/-- Source `generateRandomString(length)`, with the `Math.random()` draws made
explicit: `idxs` is the list of values of
`Math.floor(Math.random() * chars.length)` (each `< 36`), one per
character of the suffix. -/
def generateRandomString (idxs : List Nat) : List Char :=
  idxs.map (fun i => certChars.getD i 'A')

/-- Source `generateCertificateNumber`, with the current year
(`new Date().getFullYear()`) and the random draws made explicit:
`` `ECELL-${year}-${randomChars}` ``. -/
def generateCertificateNumber (year : Nat) (idxs : List Nat) : String :=
  ⟨['E', 'C', 'E', 'L', 'L', '-'] ++ decimalStr year ++ '-' :: generateRandomString idxs⟩

/-- The regex class `[A-Z0-9]`. -/
def isUpperAlnumCh (c : Char) : Bool :=
  (65 ≤ c.toNat && c.toNat ≤ 90) || isDigitCh c

/-- The anchored pattern `^ECELL-\d{4}-[A-Z0-9]{5}$` on the character
list. -/
def certPattern : List Char → Bool
  | 'E' :: 'C' :: 'E' :: 'L' :: 'L' :: '-' ::
      a :: b :: c :: d :: '-' :: e1 :: e2 :: e3 :: e4 :: e5 :: [] =>
    isDigitCh a && isDigitCh b && isDigitCh c && isDigitCh d &&
      isUpperAlnumCh e1 && isUpperAlnumCh e2 && isUpperAlnumCh e3 &&
      isUpperAlnumCh e4 && isUpperAlnumCh e5
  | _ => false

/-- Source `isValidCertificateNumber`: the anchored regex test. -/
def isValidCertificateNumber (certNumber : String) : Bool :=
  certPattern certNumber.data

/-- The numeric value of the 4-digit year component of a well-formed
certificate number (`none` when the string is not well-formed). -/
def certYear (s : String) : Option Nat :=
  match s.data with
  | 'E' :: 'C' :: 'E' :: 'L' :: 'L' :: '-' :: a :: b :: c :: d :: '-' :: _ =>
    if isDigitCh a && isDigitCh b && isDigitCh c && isDigitCh d then
      some (1000 * digitVal a + 100 * digitVal b + 10 * digitVal c + digitVal d)
    else none
  | _ => none

/-! ## `GET /api/verify/[certificateNumber]` -/

/-- A persisted certificate record, restricted to the fields the
embedded routes read or write; the storage URL, hash and timestamp
fields come from external services and are opaque to the claims. -/
structure CertRecord where
  certificateNumber : String
  participantName : String
  participantEmail : Option String := none
deriving Repr, DecidableEq

/-- The observable outcome of the verify route. -/
inductive VerifyResult where
  /-- Response `{ valid: false, error: 'Invalid certificate number format' }`, HTTP 400. -/
  | invalidFormat
  /-- Response `{ valid: false, message: 'Certificate not found' }`. -/
  | notFound
  /-- Response `{ valid: true, certificate: … }`. -/
  | found (c : CertRecord)
deriving Repr, DecidableEq

/-- The verify route body: format check first (rejecting with 400 before
any database access), then `Certificate.findOne` on the upper-cased
number.  The returned `Bool` records whether the certificate store was
queried. -/
def verifyGET (store : List CertRecord) (certificateNumber : String) :
    VerifyResult × Bool :=
  if !isValidCertificateNumber certificateNumber then (.invalidFormat, false)
  else
    match store.find? (fun c =>
        c.certificateNumber = ⟨certificateNumber.data.map upperChar⟩) with
    | none => (.notFound, true)
    | some c => (.found c, true)

/-! ## `POST /api/admin/certificates/generate` -/

/-- One entry of the request's `rows` array. -/
structure GenRow where
  data : ImportRowData
  isValid : Bool
deriving Repr, DecidableEq

/-- The event record `Event.findById` resolves. -/
structure EventRec where
  title : String
  organizer : String
  template : String
deriving Repr, DecidableEq

/-- Outcome of one row's externally-served steps (QR encode, PDF render,
upload, record creation): either they all succeed, or some step throws
an exception carrying `msg`. -/
inductive RowOutcome where
  | success
  | exception (msg : String)
deriving Repr, DecidableEq

/-- The external world of one batch-generation call: storage
configuration, the event lookup result, the certificate numbers already
persisted, the stream of candidates `generateCertificateNumber` would
produce (per row position and attempt), and each row's step outcome. -/
structure GenEnv where
  cloudinaryConfigured : Bool
  event : Option EventRec
  existing : List String
  candidate : Nat → Nat → String
  outcome : Nat → RowOutcome

/-- The route's defensive filter:
`r.isValid && r.data?.participantName && r.data?.eventName`. -/
def rowFilter (r : GenRow) : Bool :=
  r.isValid && r.data.participantName ≠ "" && r.data.eventName ≠ ""

/-- Source constant `MAX_ROWS_PER_REQUEST`. -/
def MAX_ROWS_PER_REQUEST : Nat := 20

/-- The while-loop drawing fresh certificate-number candidates: up to
`fuel` (= 10) attempts, returning the first candidate not already in the
store, `none` when all attempts collide. -/
def findFresh (store : List String) (cand : Nat → String) :
    Nat → Nat → Option String
  | _, 0 => none
  | attempt, fuel + 1 =>
    if store.contains (cand attempt) then findFresh store cand (attempt + 1) fuel
    else some (cand attempt)

/-- The sequential per-row loop of the generate route.  `pos` is the row
position within `validRows`, `store` the certificate numbers visible to
`Certificate.findOne` (pre-existing plus those inserted earlier in this
call).  Returns `(generated, failed, errors, inserted records)`.

Faithful to the source including its duplicated `catch` block: an
exception during a row's steps appends the row-scoped message **twice**
and increments the failure counter **twice**. -/
def processRows (env : GenEnv) :
    List GenRow → Nat → List String → Nat × Nat × List String × List CertRecord
  | [], _, _ => (0, 0, [], [])
  | r :: rest, pos, store =>
    let participantName := jsTrim r.data.participantName
    let participantEmail :=
      match r.data.participantEmail with
      | none => none
      | some e => if jsTrim e = "" then none else some (jsTrim e)
    let supplied := formatCertNumber (r.data.certificateNumber.getD "")
    let step2 : Sum String String :=
      if supplied ≠ "" then
        if store.contains supplied then
          .inl (s!"Row \"{participantName}\": certificate {supplied} already exists; skipped.")
        else .inr supplied
      else
        match findFresh store (env.candidate pos) 0 10 with
        | some c => .inr c
        | none =>
          .inl (s!"Row \"{participantName}\": could not generate unique certificate number.")
    match step2 with
    | .inl msg =>
      let (g, f, es, ins) := processRows env rest (pos + 1) store
      (g, f + 1, msg :: es, ins)
    | .inr cert =>
      match env.outcome pos with
      | .success =>
        let (g, f, es, ins) := processRows env rest (pos + 1) (cert :: store)
        (g + 1, f, es, ⟨cert, participantName, participantEmail⟩ :: ins)
      | .exception m =>
        let msg := s!"Row \"{participantName}\": {m}"
        let (g, f, es, ins) := processRows env rest (pos + 1) store
        (g, f + 2, msg :: msg :: es, ins)

/-- The call-level response of the generate route. -/
inductive GenResponse where
  /-- HTTP 400 (`eventId`/`rows` missing, or the row cap exceeded). -/
  | badRequest (msg : String)
  /-- HTTP 500: `'Cloud storage not configured. Please contact administrator.'`. -/
  | storageError
  /-- HTTP 404: `'Event not found'`. -/
  | eventNotFound
  /-- HTTP 200: `{ success: true, generated, failed, errors? }`. -/
  | success (generated failed : Nat) (errors : List String)
deriving Repr, DecidableEq

/-- The generate route body (after `requireAdmin` and JSON parsing):
request-shape check, defensive filter, row cap, empty short-circuit,
storage-configuration check, event lookup, then the sequential per-row
loop.  Also returns the list of records handed to `Certificate.create`,
in order. -/
def generateBatch (env : GenEnv) (eventId : String) (rows : List GenRow) :
    GenResponse × List CertRecord :=
  if eventId = "" then (.badRequest "eventId and rows (array) are required.", [])
  else
    let validRows := rows.filter rowFilter
    if validRows.length > MAX_ROWS_PER_REQUEST then
      (.badRequest s!"Maximum {MAX_ROWS_PER_REQUEST} rows per request.", [])
    else if validRows.length = 0 then (.success 0 0 [], [])
    else if !env.cloudinaryConfigured then (.storageError, [])
    else
      match env.event with
      | none => (.eventNotFound, [])
      | some _ =>
        let (g, f, es, ins) := processRows env validRows 0 env.existing
        (.success g f es, ins)

/-! ## Concrete fixtures for the claims -/

/-- Header row used by the concrete import tables below; it resolves all
six columns of the alias table. -/
def importHeader : List String :=
  ["Name", "Email", "Event", "Start Date", "End Date", "Certificate Number"]

/-- Two data rows that are identical except for the name, both carrying
the same (non-empty) certificate number, everything else valid. -/
def dupPairTable : List (List String) :=
  [importHeader,
   ["Alice", "", "Hackathon", "2026-04-10", "2026-04-12", "ECELL-2026-AAAAA"],
   ["Bob", "", "Hackathon", "2026-04-10", "2026-04-12", "ECELL-2026-AAAAA"]]

/-- A single otherwise-valid data row whose certificate number collides
(case-insensitively) with a pre-existing persisted number. -/
def preExistingTable : List (List String) :=
  [importHeader,
   ["Alice", "", "Hackathon", "2026-04-10", "2026-04-12", "ECELL-2025-AAAAA"]]

/-- A two-row table whose second row is a within-file duplicate and also
carries a non-empty e-mail cell. -/
def dupEmailTable : List (List String) :=
  [importHeader,
   ["Alice", "", "Hackathon", "2026-04-10", "2026-04-12", "X1"],
   ["Bob", "bob@mail.com", "Hackathon", "2026-04-10", "2026-04-12", "x1"]]

/-- A valid generation row (no supplied certificate number). -/
def validGenRow (name : String) : GenRow :=
  { data := { participantName := name, eventName := "Hackathon"
              eventStartDate := "2026-04-10", eventEndDate := "2026-04-12" }
    isValid := true }

/-- Environment in which every external step succeeds except the second
row's PDF render, which throws. -/
def renderFailEnv : GenEnv :=
  { cloudinaryConfigured := true
    event := some ⟨"Hackathon", "ECell", "classic"⟩
    existing := []
    candidate := fun pos _ => s!"GEN{pos}"
    outcome := fun pos => if pos = 1 then .exception "PDF render failed" else .success }

/-- Environment in which every external step succeeds. -/
def allOkEnv : GenEnv :=
  { cloudinaryConfigured := true
    event := some ⟨"Hackathon", "ECell", "classic"⟩
    existing := []
    candidate := fun _ _ => "X"
    outcome := fun _ => .success }

/-- A valid generation row with a distinct supplied certificate number. -/
def numberedGenRow (i : Nat) : GenRow :=
  { data := { participantName := s!"P{i}", eventName := "Hackathon"
              eventStartDate := "2026-04-10", eventEndDate := "2026-04-12"
              certificateNumber := some s!"N{i}" }
    isValid := true }

/-- A row that fails the defensive filter (`isValid` is false). -/
def invalidGenRow : GenRow :=
  { data := { participantName := "Zed", eventName := "Hackathon"
              eventStartDate := "2026-04-10", eventEndDate := "2026-04-12" }
    isValid := false }

/-- Twenty-one submitted rows of which twenty survive the defensive
filter: one above the cap by submitted count, at the cap by filtered
count. -/
def rows21mixed : List GenRow :=
  (List.range 20).map numberedGenRow ++ [invalidGenRow]

/-- Twenty-one submitted rows that all survive the defensive filter. -/
def rows21valid : List GenRow :=
  (List.range 21).map numberedGenRow

/-- Environment with **unconfigured** storage and a **missing** event:
used to show the empty-filter short-circuit fires before either check. -/
def noServicesEnv : GenEnv :=
  { cloudinaryConfigured := false
    event := none
    existing := []
    candidate := fun _ _ => "X"
    outcome := fun _ => .success }

/-- Leap-year rule of the Gregorian calendar, to characterise real
calendar dates. -/
def isLeapYear (y : Nat) : Bool :=
  (y % 4 = 0 && y % 100 ≠ 0) || y % 400 = 0

/-- Number of days of month `m` (1-based) in year `y`. -/
def daysInMonth (m y : Nat) : Nat :=
  if m = 2 then (if isLeapYear y then 29 else 28)
  else if m = 4 ∨ m = 6 ∨ m = 9 ∨ m = 11 then 30 else 31

/-- Two-digit zero-padded decimal rendering (for day and month cells of
a `DD-MM-YYYY` date). -/
def dd2 (n : Nat) : List Char :=
  [Nat.digitChar (n / 10), Nat.digitChar (n % 10)]

/-- A date cell written in `DD-MM-YYYY` form: two-digit day, two-digit
month, four-digit year, dash-separated. -/
def ddmmyyyyOf (d m y : Nat) : String :=
  ⟨dd2 d ++ '-' :: dd2 m ++ '-' :: decimalStr y⟩

/-! ## Theorems -/

/-- **C1.** The per-row `catch` block of the generate route is
duplicated in the source: an exception during a row's steps 2–7
increments the failure counter **twice** and appends the row-scoped
error message **twice**.  Evaluating the embedded route on three valid
rows of which exactly the second simulates a render failure gives
`generated = 2` but `failed = 2` and two identical error entries —
not the `failed = 1` / single entry the specification states. -/
theorem generateBatch_rowFailure_doubleCounted :
    generateBatch renderFailEnv "evt1"
      [validGenRow "Alice", validGenRow "Bob", validGenRow "Carol"] =
    (.success 2 2 ["Row \"Bob\": PDF render failed", "Row \"Bob\": PDF render failed"],
     [{ certificateNumber := "GEN0", participantName := "Alice" },
      { certificateNumber := "GEN2", participantName := "Carol" }]) := by
  decide

/-- **C2.** On a file whose two otherwise-valid rows share one
certificate number, the second row is indeed rejected with the single
within-file error, but the first row is **also** invalid: the loop adds
the row's own number to the seen set before calling `validateRow`, which
then reports `certificateNumber must be unique` against the row itself.
The specification says the first row is validated normally and is
valid. -/
theorem validateImportRows_selfCollision_eval :
    validateImportRows dupPairTable [] =
    [{ index := 2
       data := { participantName := "Alice", eventName := "Hackathon"
                 eventStartDate := "2026-04-10", eventEndDate := "2026-04-12"
                 certificateNumber := some "ECELL-2026-AAAAA" }
       isValid := false
       errors := ["certificateNumber must be unique"] },
     { index := 3
       data := { participantName := "Bob", eventName := "Hackathon"
                 eventStartDate := "2026-04-10", eventEndDate := "2026-04-12" }
       isValid := false
       errors := ["certificateNumber must be unique within file"] }] := by
  decide

/-- **C6.** A single row whose certificate number collides only with a
**pre-existing** persisted number is rejected with
`certificateNumber must be unique within file`, not with the plain
`certificateNumber must be unique` the specification states: the seen
set is seeded with the pre-existing numbers, so the within-file
pre-check fires first and short-circuits `validateRow`. -/
theorem validateImportRows_preExisting_withinFileMsg :
    validateImportRows preExistingTable ["ECELL-2025-AAAAA"] =
    [{ index := 2
       data := { participantName := "Alice", eventName := "Hackathon"
                 eventStartDate := "2026-04-10", eventEndDate := "2026-04-12" }
       isValid := false
       errors := ["certificateNumber must be unique within file"] }] := by
  decide

/-- **C3, counterexample.** A within-file-duplicate row with a
**non-empty** e-mail cell and a **non-empty** certificate-number cell
nevertheless has both optional fields omitted from its `data`,
refuting "omitted exactly when their cell value is empty". -/
theorem validateImportRows_dupRow_omitsNonempty_counterexample :
    (validateImportRows dupEmailTable []).map (fun r => r.data.participantEmail) =
      [none, none] ∧
    (validateImportRows dupEmailTable []).map (fun r => r.data.certificateNumber) =
      [some "X1", none] ∧
    (dupEmailTable.getD 2 []).getD 1 "" = "bob@mail.com" ∧
    (dupEmailTable.getD 2 []).getD 5 "" = "x1" ∧
    (validateImportRows dupEmailTable []).map (fun r => r.errors) =
      [["certificateNumber must be unique"],
       ["certificateNumber must be unique within file"]] := by
  decide

/-- **C4, counterexample.** The cap is checked against the row count
**after** the defensive filter: a call submitting 21 rows (one above the
cap) of which one row fails the filter is *not* rejected — it processes
the remaining 20 rows and performs 20 insertions. -/
theorem generateBatch_capOnFilteredRows_counterexample :
    rows21mixed.length = 21 ∧
    MAX_ROWS_PER_REQUEST < rows21mixed.length ∧
    (generateBatch allOkEnv "evt1" rows21mixed).1 = .success 20 0 [] ∧
    (generateBatch allOkEnv "evt1" rows21mixed).2.length = 20 := by
  decide

/-- **C4, amended.** The whole-call cap rejection as the code actually
implements it: whenever the count of rows **surviving the defensive
filter** exceeds `MAX_ROWS_PER_REQUEST`, the call fails with the
explicit cap error and performs zero insertions, no row processed. -/
theorem generateBatch_filteredCap_rejectsWholeCall :
    ∀ (env : GenEnv) (eventId : String) (rows : List GenRow),
      eventId ≠ "" → (rows.filter rowFilter).length > MAX_ROWS_PER_REQUEST →
      generateBatch env eventId rows = (.badRequest "Maximum 20 rows per request.", []) := by
  intro env eventId rows h hcap
  simp only [generateBatch, if_neg h, if_pos hcap]
  decide

/-- **C4, witness.** A call with 21 rows that all survive the filter is
rejected with the cap error and zero insertions. -/
theorem generateBatch_filteredCap_witness :
    generateBatch allOkEnv "evt1" rows21valid =
      (.badRequest "Maximum 20 rows per request.", []) :=
  generateBatch_filteredCap_rejectsWholeCall allOkEnv "evt1" rows21valid
    (by decide) (by decide)

/-- **C10.** The generate route's result is a function of the rows
surviving the defensive filter alone (dropped rows are neither generated
nor counted as failed), and when no rows survive, the call short-circuits
to `success, generated = 0, failed = 0` for **every** environment — in
particular one with unconfigured storage and a missing event, so neither
of those errors can be reported. -/
theorem generateBatch_dropsFilteredRows :
    ∀ (env : GenEnv) (eventId : String) (rows : List GenRow), eventId ≠ "" →
      generateBatch env eventId rows = generateBatch env eventId (rows.filter rowFilter) ∧
      ((rows.filter rowFilter).length = 0 →
        generateBatch env eventId rows = (.success 0 0 [], [])) := by
  intro env eventId rows h
  constructor
  · simp only [generateBatch, List.filter_filter, Bool.and_self]
  · intro h0
    simp [generateBatch, h, h0]

/-- **C10, witness.** One submitted row failing the filter, storage
unconfigured, event missing: the call still returns success with zero
counts. -/
theorem generateBatch_dropsFilteredRows_witness :
    generateBatch noServicesEnv "evt1" [invalidGenRow] = (.success 0 0 [], []) :=
  (generateBatch_dropsFilteredRows noServicesEnv "evt1" [invalidGenRow] (by decide)).2
    (by decide)

/-- Helper: every character of a string accepted by the certificate
pattern has a code point below 97 (upper-case letters, digits, the
literal prefix and dashes), hence no lower-case letter. -/
theorem certPattern_chars_lt97 :
    ∀ cs, certPattern cs = true → ∀ c ∈ cs, c.toNat < 97 := by
  intro cs h
  unfold certPattern at h
  split at h
  · simp only [Bool.and_eq_true, isDigitCh, isUpperAlnumCh, Bool.or_eq_true,
      decide_eq_true_eq] at h
    obtain ⟨⟨⟨⟨⟨⟨⟨⟨ha, hb⟩, hc⟩, hd⟩, he1⟩, he2⟩, he3⟩, he4⟩, he5⟩ := h
    intro c hc'
    fin_cases hc' <;> first
      | decide
      | omega
  · exact absurd h (by simp)

/-- **C9.** Any certificate-number string failing the anchored format
check — in particular any string containing a lower-case letter — makes
the public verification endpoint answer `invalid format` (HTTP 400)
without querying the certificate store. -/
theorem verifyGET_rejectsBadFormat :
    (∀ (store : List CertRecord) (s : String), isValidCertificateNumber s = false →
      verifyGET store s = (.invalidFormat, false)) ∧
    (∀ s : String, s.data.any (fun c => 97 ≤ c.toNat && c.toNat ≤ 122) = true →
      isValidCertificateNumber s = false) := by
  constructor
  · intro store s h
    simp [verifyGET, h]
  · intro s h
    rcases List.any_eq_true.mp h with ⟨c, hc, hlow⟩
    simp only [Bool.and_eq_true, decide_eq_true_eq] at hlow
    by_contra hne
    have htrue : isValidCertificateNumber s = true := by
      cases hveq : isValidCertificateNumber s
      · exact absurd hveq hne
      · rfl
    have := certPattern_chars_lt97 s.data htrue c hc
    omega

/-- **C9, witness.** A lower-case rendering of a real certificate
number is rejected with no store query even when the store holds the
upper-case record. -/
theorem verifyGET_rejectsBadFormat_witness :
    verifyGET [{ certificateNumber := "ECELL-2025-AAAAA", participantName := "Alice" }]
      "ecell-2025-aaaaa" = (.invalidFormat, false) ∧
    isValidCertificateNumber "ecell-2025-aaaaa" = false :=
  ⟨verifyGET_rejectsBadFormat.1 _ "ecell-2025-aaaaa" (by decide),
   verifyGET_rejectsBadFormat.2 "ecell-2025-aaaaa" (by decide)⟩

/-- Helper: the row index stored by `validateRow` is the index it was
called with. -/
theorem validateRow_index (row : List String) (idx : Nat) (cm : ColumnMap)
    (seen : List String) : (validateRow row idx cm seen).index = idx := rfl

/-- Helper: the row index stored by the duplicate branch is the index it
was called with. -/
theorem dupRow_index (row : List String) (cm : ColumnMap) (idx : Nat) :
    (dupRow row cm idx).index = idx := rfl

/-- Helper: the data-row loop emits exactly one result per input row, in
order, with consecutive indices starting at the one supplied. -/
theorem validateRowsGo_spec (cm : ColumnMap) :
    ∀ (rest : List (List String)) (seen : List String) (idx : Nat),
      (validateRowsGo cm rest seen idx).length = rest.length ∧
      (validateRowsGo cm rest seen idx).map (fun r => r.index) =
        List.range' idx rest.length := by
  intro rest
  induction rest with
  | nil => intro seen idx; simp [validateRowsGo]
  | cons row rest ih =>
    intro seen idx
    simp only [validateRowsGo]
    split
    · obtain ⟨h1, h2⟩ := ih seen (idx + 1)
      simp [List.range'_succ, h1, h2, validateRow_index]
    · split
      · obtain ⟨h1, h2⟩ := ih seen (idx + 1)
        simp [List.range'_succ, h1, h2, dupRow_index]
      · obtain ⟨h1, h2⟩ :=
          ih (formatCertNumber (getCell row cm.certificateNumber) :: seen) (idx + 1)
        simp [List.range'_succ, h1, h2, validateRow_index]

/-- **C5.** For every input table, `validateImportRows` returns exactly
`rows.length − 1` results whose `index` values form the contiguous
sequence `2 .. rows.length`; for a header-only or empty table (where
`rows.length − 1 = 0` in truncated subtraction) the result is the empty
list, with no error raised (the function is total). -/
theorem validateImportRows_length_indices :
    ∀ (rows : List (List String)) (existing : List String),
      (validateImportRows rows existing).length = rows.length - 1 ∧
      (validateImportRows rows existing).map (fun r => r.index) =
        List.range' 2 (rows.length - 1) ∧
      validateImportRows [] existing = [] ∧
      ∀ hdr : List String, validateImportRows [hdr] existing = [] := by
  intro rows existing
  refine ⟨?_, ?_, by simp [validateImportRows], fun hdr => by simp [validateImportRows]⟩
  · match rows with
    | [] => simp [validateImportRows]
    | [hdr] => simp [validateImportRows]
    | hdr :: row :: rest =>
      simpa [validateImportRows] using
        (validateRowsGo_spec (findColumnKey hdr) (row :: rest) existing 2).1
  · match rows with
    | [] => simp [validateImportRows]
    | [hdr] => simp [validateImportRows]
    | hdr :: row :: rest =>
      simpa [validateImportRows] using
        (validateRowsGo_spec (findColumnKey hdr) (row :: rest) existing 2).2

/-- Helper: `validateRow` never emits the within-file duplicate message;
that message only comes from the pre-check branch of the loop. -/
theorem validateRow_not_withinFileMsg (row : List String) (idx : Nat)
    (cm : ColumnMap) (seen : List String) :
    "certificateNumber must be unique within file" ∉ (validateRow row idx cm seen).errors := by
  intro h
  simp only [validateRow, List.mem_append] at h
  rcases h with ((((h | h) | h) | h) | h) | h <;> (repeat' split at h) <;> simp_all

/-- Helper: every result of the loop carrying the within-file duplicate
message was produced by the duplicate branch, whose `data` omits both
optional fields. -/
theorem validateRowsGo_dupRow_data (cm : ColumnMap) :
    ∀ (rest : List (List String)) (seen : List String) (idx : Nat)
      (r : ValidatedImportRow),
      r ∈ validateRowsGo cm rest seen idx →
      "certificateNumber must be unique within file" ∈ r.errors →
      r.data.participantEmail = none ∧ r.data.certificateNumber = none := by
  intro rest
  induction rest with
  | nil => intro seen idx r hr _; simp [validateRowsGo] at hr
  | cons row rest ih =>
    intro seen idx r hr hmsg
    simp only [validateRowsGo] at hr
    split at hr
    · rcases List.mem_cons.mp hr with h | h
      · subst h; exact absurd hmsg (validateRow_not_withinFileMsg row idx cm seen)
      · exact ih seen (idx + 1) r h hmsg
    · split at hr
      · rcases List.mem_cons.mp hr with h | h
        · subst h; exact ⟨rfl, rfl⟩
        · exact ih seen (idx + 1) r h hmsg
      · rcases List.mem_cons.mp hr with h | h
        · subst h
          exact absurd hmsg (validateRow_not_withinFileMsg row idx cm
            (formatCertNumber (getCell row cm.certificateNumber) :: seen))
        · exact ih (formatCertNumber (getCell row cm.certificateNumber) :: seen)
            (idx + 1) r h hmsg

/-- **C3, amended.** For results produced by per-row validation
(`validateRow`), `data` holds the normalized strings of all fields with
`participantEmail`/`certificateNumber` omitted exactly when their cell is
empty; results rejected as within-file duplicates — the only other kind
`validateImportRows` produces — always omit both optional fields from
`data` (even when the cells are non-empty), keeping only the four
required fields. -/
theorem validateImportRows_data_shape :
    (∀ (row : List String) (idx : Nat) (cm : ColumnMap) (seen : List String),
      (validateRow row idx cm seen).data =
        { participantName := getCell row cm.participantName
          participantEmail :=
            if getCell row cm.participantEmail ≠ "" then
              some (getCell row cm.participantEmail)
            else none
          eventName := getCell row cm.eventName
          eventStartDate := getCell row cm.eventStartDate
          eventEndDate := getCell row cm.eventEndDate
          certificateNumber :=
            if getCell row cm.certificateNumber ≠ "" then
              some (formatCertNumber (getCell row cm.certificateNumber))
            else none }) ∧
    (∀ (rows : List (List String)) (existing : List String)
      (r : ValidatedImportRow),
      r ∈ validateImportRows rows existing →
      "certificateNumber must be unique within file" ∈ r.errors →
      r.data.participantEmail = none ∧ r.data.certificateNumber = none) := by
  constructor
  · intro row idx cm seen; rfl
  · intro rows existing r hr hmsg
    match rows with
    | [] => simp [validateImportRows] at hr
    | [hdr] => simp [validateImportRows] at hr
    | hdr :: row :: rest =>
      exact validateRowsGo_dupRow_data (findColumnKey hdr) (row :: rest)
        existing 2 r hr hmsg

/-- **C3, amended, witness.** The duplicate second row of the concrete
table (whose e-mail and certificate cells are non-empty) has both
optional fields omitted. -/
theorem validateImportRows_data_shape_witness :
    ({ index := 3
       data := { participantName := "Bob", eventName := "Hackathon"
                 eventStartDate := "2026-04-10", eventEndDate := "2026-04-12" }
       isValid := false
       errors := ["certificateNumber must be unique within file"] } :
      ValidatedImportRow).data.participantEmail = none ∧
    ({ index := 3
       data := { participantName := "Bob", eventName := "Hackathon"
                 eventStartDate := "2026-04-10", eventEndDate := "2026-04-12" }
       isValid := false
       errors := ["certificateNumber must be unique within file"] } :
      ValidatedImportRow).data.certificateNumber = none :=
  validateImportRows_data_shape.2 dupEmailTable [] _ (by decide) (by decide)

/-- Helper: the rendering of a digit value is an ASCII digit. -/
theorem digitChar_digit : ∀ k, k < 10 → isDigitCh (Nat.digitChar k) = true := by decide

/-- Helper: the rendering of a digit value is not whitespace. -/
theorem digitChar_not_ws : ∀ k, k < 10 → isWs (Nat.digitChar k) = false := by decide

/-- Helper: reading back the rendered digit recovers the value. -/
theorem digitChar_val : ∀ k, k < 10 → digitVal (Nat.digitChar k) = k := by decide

/-- Helper: trimming is the identity on whitespace-free character
lists. -/
theorem trimCh_eq_self (cs : List Char) (h : ∀ c ∈ cs, isWs c = false) :
    trimCh cs = cs := by
  unfold trimCh
  have drop1 : cs.dropWhile isWs = cs := by
    cases cs with
    | nil => rfl
    | cons a t => simp [List.dropWhile_cons, h a (by simp)]
  rw [drop1]
  have drop2 : cs.reverse.dropWhile isWs = cs.reverse := by
    cases hrev : cs.reverse with
    | nil => rfl
    | cons a t =>
      have ha : a ∈ cs := by
        rw [← List.mem_reverse, hrev]; simp
      simp [List.dropWhile_cons, h a ha]
  rw [drop2, List.reverse_reverse]

/-- Helper: the decimal rendering of a four-digit number, digit by
digit. -/
theorem decimalStr_four (y : Nat) (h1 : 1000 ≤ y) (h2 : y ≤ 9999) :
    decimalStr y = [Nat.digitChar (y / 1000), Nat.digitChar (y / 100 % 10),
      Nat.digitChar (y / 10 % 10), Nat.digitChar (y % 10)] := by
  rw [decimalStr, dif_neg (by omega)]
  rw [decimalStr, dif_neg (by omega : ¬y / 10 < 10)]
  rw [decimalStr, dif_neg (by omega : ¬y / 10 / 10 < 10)]
  rw [decimalStr, dif_pos (by omega : y / 10 / 10 / 10 < 10)]
  have e1 : y / 10 / 10 / 10 = y / 1000 := by omega
  have e2 : y / 10 / 10 % 10 = y / 100 % 10 := by omega
  rw [e1, e2]
  simp

/-- Helper: the flexible-date rewrite on a string of shape
`\d\d-\d\d-\d\d\d\d`. -/
theorem pfdCh_ddmmyyyy (c1 c2 c3 c4 c5 c6 c7 c8 : Char)
    (h1 : isDigitCh c1 = true) (h2 : isDigitCh c2 = true)
    (h3 : isDigitCh c3 = true) (h4 : isDigitCh c4 = true)
    (h5 : isDigitCh c5 = true) (h6 : isDigitCh c6 = true)
    (h7 : isDigitCh c7 = true) (h8 : isDigitCh c8 = true) :
    pfdCh [c1, c2, '-', c3, c4, '-', c5, c6, c7, c8] =
      ⟨[c5, c6, c7, c8, '-', c3, c4, '-', c1, c2]⟩ := by
  have hnw : ∀ c : Char, isDigitCh c = true → isWs c = false := by
    intro c hc
    simp only [isDigitCh, Bool.and_eq_true, decide_eq_true_eq] at hc
    simp only [isWs, Bool.or_eq_false_iff, decide_eq_false_iff_not]
    omega
  have hws : ∀ c ∈ [c1, c2, '-', c3, c4, '-', c5, c6, c7, c8], isWs c = false := by
    intro c hc
    fin_cases hc <;> first
      | decide
      | exact hnw _ (by assumption)
  simp only [pfdCh]
  rw [trimCh_eq_self _ hws]
  simp [h1, h2, h3, h4, h5, h6, h7, h8]

/-- Helper: date validity of a `YYYY-MM-DD` string with digit
characters reduces to the month/day bounds. -/
theorem jsDateValid_digits (y1 y2 y3 y4 m1 m2 d1 d2 : Char)
    (hy1 : isDigitCh y1 = true) (hy2 : isDigitCh y2 = true)
    (hy3 : isDigitCh y3 = true) (hy4 : isDigitCh y4 = true)
    (hm1 : isDigitCh m1 = true) (hm2 : isDigitCh m2 = true)
    (hd1 : isDigitCh d1 = true) (hd2 : isDigitCh d2 = true) :
    jsDateValid ⟨[y1, y2, y3, y4, '-', m1, m2, '-', d1, d2]⟩ =
      (decide (1 ≤ 10 * digitVal m1 + digitVal m2) &&
       decide (10 * digitVal m1 + digitVal m2 ≤ 12) &&
       decide (1 ≤ 10 * digitVal d1 + digitVal d2) &&
       decide (10 * digitVal d1 + digitVal d2 ≤ 31)) := by
  simp [jsDateValid, hy1, hy2, hy3, hy4, hm1, hm2, hd1, hd2]

/-- **C7.** Every `eventStartDate`/`eventEndDate` cell written as a real
calendar date in `DD-MM-YYYY` form is rewritten by the flexible-date
parser to `YYYY-MM-DD` and is then accepted as a valid date (so no
`must be a valid date` error can arise for that field). -/
theorem flexibleDate_ddmmyyyy_accepted :
    ∀ (d m y : Nat), 1 ≤ d → d ≤ daysInMonth m y → 1 ≤ m → m ≤ 12 →
      1000 ≤ y → y ≤ 9999 →
      parseFlexibleDate (ddmmyyyyOf d m y) =
        ⟨decimalStr y ++ '-' :: dd2 m ++ '-' :: dd2 d⟩ ∧
      isValidDateStr (ddmmyyyyOf d m y) = true := by
  intro d m y hd1 hd2 hm1 hm2 hy1 hy2
  have hd31 : d ≤ 31 := le_trans hd2 (by unfold daysInMonth; split_ifs <;> omega)
  have h4 := decimalStr_four y hy1 hy2
  have key : parseFlexibleDate (ddmmyyyyOf d m y) =
      ⟨decimalStr y ++ '-' :: dd2 m ++ '-' :: dd2 d⟩ := by
    show pfdCh (ddmmyyyyOf d m y).data = _
    unfold ddmmyyyyOf dd2
    rw [h4]
    simp only [List.cons_append, List.nil_append]
    rw [pfdCh_ddmmyyyy _ _ _ _ _ _ _ _
      (digitChar_digit _ (by omega)) (digitChar_digit _ (by omega))
      (digitChar_digit _ (by omega)) (digitChar_digit _ (by omega))
      (digitChar_digit _ (by omega)) (digitChar_digit _ (by omega))
      (digitChar_digit _ (by omega)) (digitChar_digit _ (by omega))]
  refine ⟨key, ?_⟩
  have hws : ∀ c ∈ (ddmmyyyyOf d m y).data, isWs c = false := by
    unfold ddmmyyyyOf dd2
    rw [h4]
    simp only [List.cons_append, List.nil_append]
    intro c hc
    fin_cases hc <;> first
      | decide
      | exact digitChar_not_ws _ (by omega)
  show (if (trimCh (ddmmyyyyOf d m y).data).isEmpty then false
        else jsDateValid (parseFlexibleDate (ddmmyyyyOf d m y))) = true
  rw [trimCh_eq_self _ hws, key]
  have hne : ((ddmmyyyyOf d m y).data).isEmpty = false := by
    unfold ddmmyyyyOf dd2
    simp
  rw [hne]
  simp only [Bool.false_eq_true, if_false]
  rw [h4]
  simp only [List.cons_append, List.nil_append, dd2]
  rw [jsDateValid_digits _ _ _ _ _ _ _ _
    (digitChar_digit _ (by omega)) (digitChar_digit _ (by omega))
    (digitChar_digit _ (by omega)) (digitChar_digit _ (by omega))
    (digitChar_digit _ (by omega)) (digitChar_digit _ (by omega))
    (digitChar_digit _ (by omega)) (digitChar_digit _ (by omega))]
  rw [digitChar_val _ (by omega : m / 10 < 10), digitChar_val _ (by omega : m % 10 < 10),
    digitChar_val _ (by omega : d / 10 < 10), digitChar_val _ (by omega : d % 10 < 10)]
  have em : 10 * (m / 10) + m % 10 = m := by omega
  have ed : 10 * (d / 10) + d % 10 = d := by omega
  rw [em, ed]
  simp only [Bool.and_eq_true, decide_eq_true_eq]
  exact ⟨⟨⟨hm1, hm2⟩, hd1⟩, hd31⟩

/-- **C7, witness.** The cell `10-04-2026` is rewritten to `2026-04-10`
and accepted as a valid date. -/
theorem flexibleDate_ddmmyyyy_witness :
    parseFlexibleDate (ddmmyyyyOf 10 4 2026) =
      ⟨decimalStr 2026 ++ '-' :: dd2 4 ++ '-' :: dd2 10⟩ ∧
    isValidDateStr (ddmmyyyyOf 10 4 2026) = true :=
  flexibleDate_ddmmyyyy_accepted 10 4 2026 (by decide) (by decide) (by decide)
    (by decide) (by decide) (by decide)

/-- Helper: every character drawn from the fixed suffix character set is
in the regex class `[A-Z0-9]`. -/
theorem certChars_upperAlnum :
    ∀ i, i < 36 → isUpperAlnumCh (certChars.getD i 'A') = true := by decide

/-- **C8.** Round trip: for every 4-digit current year and every choice
of the five `Math.random` draws (each an index below 36),
`isValidCertificateNumber (generateCertificateNumber …)` is `true`, and
the numeric value of the 4-digit year component of the generated number
is exactly the year at generation time. -/
theorem generateCertificateNumber_roundTrip :
    ∀ (year i1 i2 i3 i4 i5 : Nat), 1000 ≤ year → year ≤ 9999 →
      i1 < 36 → i2 < 36 → i3 < 36 → i4 < 36 → i5 < 36 →
      isValidCertificateNumber (generateCertificateNumber year [i1, i2, i3, i4, i5]) = true ∧
      certYear (generateCertificateNumber year [i1, i2, i3, i4, i5]) = some year := by
  intro year i1 i2 i3 i4 i5 hy1 hy2 h1 h2 h3 h4 h5
  have h4d := decimalStr_four year hy1 hy2
  constructor
  · show certPattern (generateCertificateNumber year [i1, i2, i3, i4, i5]).data = true
    unfold generateCertificateNumber generateRandomString
    rw [h4d]
    simp only [List.map_cons, List.map_nil, List.cons_append, List.nil_append]
    simp only [certPattern, Bool.and_eq_true]
    refine ⟨⟨⟨⟨⟨⟨⟨⟨?_, ?_⟩, ?_⟩, ?_⟩, ?_⟩, ?_⟩, ?_⟩, ?_⟩, ?_⟩ <;> first
      | exact digitChar_digit _ (by omega)
      | exact certChars_upperAlnum _ (by omega)
  · show certYear (generateCertificateNumber year [i1, i2, i3, i4, i5]) = some year
    unfold generateCertificateNumber generateRandomString certYear
    rw [h4d]
    simp only [List.map_cons, List.map_nil, List.cons_append, List.nil_append]
    rw [if_pos]
    · rw [digitChar_val _ (by omega : year / 1000 < 10),
        digitChar_val _ (by omega : year / 100 % 10 < 10),
        digitChar_val _ (by omega : year / 10 % 10 < 10),
        digitChar_val _ (by omega : year % 10 < 10)]
      congr 1
      omega
    · simp only [Bool.and_eq_true]
      exact ⟨⟨⟨digitChar_digit _ (by omega), digitChar_digit _ (by omega)⟩,
        digitChar_digit _ (by omega)⟩, digitChar_digit _ (by omega)⟩

/-- **C8, witness.** A concrete generated number round-trips: the
generated string is well-formed and its year component reads back as
2025. -/
theorem generateCertificateNumber_roundTrip_witness :
    isValidCertificateNumber (generateCertificateNumber 2025 [10, 3, 8, 2, 16]) = true ∧
    certYear (generateCertificateNumber 2025 [10, 3, 8, 2, 16]) = some 2025 :=
  generateCertificateNumber_roundTrip 2025 10 3 8 2 16 (by decide) (by decide)
    (by decide) (by decide) (by decide) (by decide) (by decide)
